import Mathlib

/-!
Shallow embedding of the session/conversation lifecycle core of the
telegram-ai-bot repository, together with proofs of the specified
properties.

Modelling conventions:
* `datetime.utcnow()` is modelled by an explicit `now : Int` parameter
  (seconds); every `utcnow` call inside a single operation observes the
  same `now`.  `datetime.isoformat`/`fromisoformat` form a bijection on
  datetimes and are modelled as the identity on the integer timestamp.
* `uuid.uuid4()`-generated identifiers are passed in as explicit
  `fresh…` string parameters.
* Python `dict`s are modelled as association lists with
  replace-on-assignment semantics (`insertAssoc`); `del d[k]` is
  `eraseAssoc`.
* `Optional[str]` fields are `Option String`; Python truthiness of such
  a field (`if not x:`) is `pyFalsy` (true on `None` and on `""`).
* The remote OpenAI client inside `AssistantService` is opaque; the
  `Gateway` structure abstracts the three remote operations the
  coordinator consumes, each returning `Except GwError …`.  The
  `delete_thread` operation never raises (its implementation catches all
  exceptions and returns a boolean), so it contributes only a call-trace
  entry.  Every coordinator operation additionally returns the list of
  remote calls it performed (`List GwCall`) so that call-count
  properties can be stated.
* The `metadata` dictionaries (`Dict[str, Any]`) and the generated
  per-message uuid are bookkeeping not observed by any claim and are not
  modelled.
-/

/-- Python truthiness test of an `Optional[str]`: `None` and `""` are falsy. -/
def pyFalsy : Option String → Bool
  | none => true
  | some s => s.isEmpty

/-- Association-list lookup, modelling `dict.get`. -/
def findAssoc {κ α : Type} [BEq κ] : List (κ × α) → κ → Option α
  | [], _ => none
  | (k', v) :: rest, k => if k' == k then some v else findAssoc rest k

/-- Association-list assignment, modelling `d[k] = v` (replace or append). -/
def insertAssoc {κ α : Type} [BEq κ] : List (κ × α) → κ → α → List (κ × α)
  | [], k, v => [(k, v)]
  | (k', v') :: rest, k, v =>
      if k' == k then (k, v) :: rest else (k', v') :: insertAssoc rest k v

/-- Association-list deletion, modelling `del d[k]` (keys are unique in a dict). -/
def eraseAssoc {κ α : Type} [BEq κ] : List (κ × α) → κ → List (κ × α)
  | [], _ => []
  | (k', v) :: rest, k =>
      if k' == k then rest else (k', v) :: eraseAssoc rest k

/-- Message role enumeration (`MessageRole` in models/conversation.py). -/
inductive MessageRole where
  | user
  | assistant
  | system
deriving DecidableEq, Repr

/-- A message of the local conversation log (`Message` in models/conversation.py). -/
structure Message where
  role : MessageRole
  content : String
  timestamp : Int
deriving DecidableEq, Repr

/-- Local conversation log (`Conversation` in models/conversation.py). -/
structure Conversation where
  id : String
  user_id : Int
  character_id : Option String
  assistant_id : Option String
  thread_id : Option String
  messages : List Message
  created_at : Int
  updated_at : Int
deriving DecidableEq, Repr

/-- `Conversation(user_id=…, character_id=…, assistant_id=…, thread_id=…)` with
defaulted fields (fresh uuid, empty messages, `utcnow` timestamps). -/
def Conversation.new (id : String) (user_id : Int) (character_id : String)
    (assistant_id : String) (thread_id : String) (now : Int) : Conversation :=
  { id := id, user_id := user_id, character_id := some character_id,
    assistant_id := some assistant_id, thread_id := some thread_id,
    messages := [], created_at := now, updated_at := now }

/-- `Conversation.add_message` specialised by `add_user_message`. -/
def Conversation.add_user_message (c : Conversation) (now : Int) (content : String) :
    Conversation :=
  { c with messages := c.messages ++ [{ role := MessageRole.user, content := content, timestamp := now }],
           updated_at := now }

/-- `Conversation.add_message` specialised by `add_assistant_message`. -/
def Conversation.add_assistant_message (c : Conversation) (now : Int) (content : String) :
    Conversation :=
  { c with messages := c.messages ++ [{ role := MessageRole.assistant, content := content, timestamp := now }],
           updated_at := now }

/-- `Conversation.get_recent_messages`: `self.messages[-limit:] if self.messages
else []`.  Note Python's `l[-0:]` is the whole list. -/
def Conversation.get_recent_messages (c : Conversation) (limit : Nat) : List Message :=
  if c.messages.isEmpty then []
  else if limit == 0 then c.messages
  else c.messages.drop (c.messages.length - limit)

/-- User session state (`UserSession` in models/user.py). -/
structure UserSession where
  id : String
  user_id : Int
  character_id : Option String
  conversation_id : Option String
  assistant_id : Option String
  thread_id : Option String
  created_at : Int
  last_activity : Int
  is_active : Bool
deriving DecidableEq, Repr

/-- `UserSession(user_id=uid)` with defaulted fields. -/
def UserSession.new (id : String) (user_id : Int) (now : Int) : UserSession :=
  { id := id, user_id := user_id, character_id := none, conversation_id := none,
    assistant_id := none, thread_id := none, created_at := now,
    last_activity := now, is_active := true }

/-- `UserSession.update_activity`. -/
def UserSession.update_activity (s : UserSession) (now : Int) : UserSession :=
  { s with last_activity := now }

/-- `UserSession.set_character` (sets the id and updates activity). -/
def UserSession.set_character (s : UserSession) (now : Int) (character_id : String) :
    UserSession :=
  { s with character_id := some character_id, last_activity := now }

/-- `UserSession.set_conversation`. -/
def UserSession.set_conversation (s : UserSession) (now : Int) (conversation_id : String) :
    UserSession :=
  { s with conversation_id := some conversation_id, last_activity := now }

/-- `UserSession.set_assistant_thread`: sets both remote ids together. -/
def UserSession.set_assistant_thread (s : UserSession) (now : Int)
    (assistant_id thread_id : String) : UserSession :=
  { s with assistant_id := some assistant_id, thread_id := some thread_id,
           last_activity := now }

/-- `UserSession.reset`: clears character, conversation, assistant and thread
ids and updates activity. -/
def UserSession.reset (s : UserSession) (now : Int) : UserSession :=
  { s with character_id := none, conversation_id := none, assistant_id := none,
           thread_id := none, last_activity := now }

/-- `UserSession.is_expired`: inactive sessions are expired; otherwise the
session is expired when `now - last_activity > timeout_seconds`. -/
def UserSession.is_expired (s : UserSession) (now : Int) (timeout_seconds : Int) : Bool :=
  if !s.is_active then true
  else decide (now - s.last_activity > timeout_seconds)

/-- The flat record written by `UserSession.to_dict` (timestamps kept as the
integers they serialise to). -/
structure SessionRecord where
  id : String
  user_id : Int
  character_id : Option String
  conversation_id : Option String
  assistant_id : Option String
  thread_id : Option String
  created_at : Int
  last_activity : Int
  is_active : Bool
deriving DecidableEq, Repr

/-- `UserSession.to_dict`. -/
def UserSession.to_dict (s : UserSession) : SessionRecord :=
  { id := s.id, user_id := s.user_id, character_id := s.character_id,
    conversation_id := s.conversation_id, assistant_id := s.assistant_id,
    thread_id := s.thread_id, created_at := s.created_at,
    last_activity := s.last_activity, is_active := s.is_active }

/-- `UserSession.from_dict` (every key is present in a record produced by
`to_dict`, so the `.get` defaults are not exercised). -/
def UserSession.from_dict (d : SessionRecord) : UserSession :=
  { id := d.id, user_id := d.user_id, character_id := d.character_id,
    conversation_id := d.conversation_id, assistant_id := d.assistant_id,
    thread_id := d.thread_id, created_at := d.created_at,
    last_activity := d.last_activity, is_active := d.is_active }

/-- Character / persona (`Character` in models/character.py). -/
structure Character where
  id : String
  name : String
  emoji : String
  description : String
  personality : String
  greeting : String
  image_paths : List String
  traits : List String
  conversation_style : String
deriving DecidableEq, Repr

/-- Persona registry (`CharacterRepository` in models/character.py):
`self._characters : Dict[str, Character]`. -/
structure CharacterRepository where
  characters : List (String × Character)
deriving DecidableEq, Repr

/-- `CharacterRepository.get_character`. -/
def CharacterRepository.get_character (repo : CharacterRepository) (character_id : String) :
    Option Character :=
  findAssoc repo.characters character_id

/-- `CharacterRepository.add_character`: plain dict assignment
`self._characters[character.id] = character`; there is no duplicate check. -/
def CharacterRepository.add_character (repo : CharacterRepository) (ch : Character) :
    CharacterRepository :=
  { repo with characters := insertAssoc repo.characters ch.id ch }

/-- Typed failures raised inside the gateway layer (`AssistantService`):
`TimeoutError` from run polling, `RuntimeError` for a failed / cancelled /
expired run, `ValueError` when a completed run has no extractable text, and
any other remote API exception. -/
inductive GwError where
  | timeoutErr (timeout : Nat)
  | runFailed (status : String)
  | noResponse
  | apiError (msg : String)
deriving DecidableEq, Repr

/-- One remote call performed by the coordinator through `AssistantService`. -/
inductive GwCall where
  | getOrCreateAssistant (character_id : String)
  | createThread (assistant_id : String) (user_id : Int) (character_id : String)
  | sendAwait (thread_id assistant_id message : String) (user_id : Int)
  | deleteThread (thread_id : String)
deriving DecidableEq, Repr

/-- Abstraction of the remote operations of `AssistantService` as consumed by
`ConversationService`.  `delete_thread` is omitted because its implementation
catches every exception and returns a boolean that the coordinator ignores. -/
structure Gateway where
  get_or_create_assistant : Character → Except GwError String
  create_thread : String → Int → String → Except GwError String
  send_message : String → String → String → Int → Except GwError String

/-- Remote run status as observed by the polling loop. -/
inductive RunStatus where
  | completed
  | failed
  | cancelled
  | expired
  | inProgress
deriving DecidableEq, Repr

/-- One content block of a remote thread message. -/
structure RemoteContent where
  type : String
  text : String
deriving DecidableEq, Repr

/-- A remote thread message as returned by `messages.list(limit=1)`. -/
structure RemoteMessage where
  role : String
  content : List RemoteContent
deriving DecidableEq, Repr

/-- Text extraction performed by `_wait_for_run_completion` on completion:
take the most recent message; if it is an assistant message with a non-empty
content list, return its first `"text"` content block. -/
def extractAssistantText : List RemoteMessage → Option String
  | [] => none
  | m :: _ =>
      if m.role == "assistant" && !m.content.isEmpty then
        match m.content.find? (fun c => c.type == "text") with
        | some c => some c.text
        | none => none
      else none

/-- The polling loop of `AssistantService._wait_for_run_completion`, with the
run's status trace abstracted as `statusAt : Nat → RunStatus` (status observed
after `elapsed` one-second sleeps) and the final message list abstracted as
`latest`.  Each iteration first checks `elapsed > timeout`, then inspects the
status, then sleeps one second. -/
def waitPoll (statusAt : Nat → RunStatus) (latest : List RemoteMessage)
    (timeout : Nat) (elapsed : Nat) : Except GwError String :=
  if _h : timeout < elapsed then Except.error (GwError.timeoutErr timeout)
  else
    match statusAt elapsed with
    | RunStatus.completed =>
        match extractAssistantText latest with
        | some t => Except.ok t
        | none => Except.error GwError.noResponse
    | RunStatus.failed => Except.error (GwError.runFailed "failed")
    | RunStatus.cancelled => Except.error (GwError.runFailed "cancelled")
    | RunStatus.expired => Except.error (GwError.runFailed "expired")
    | RunStatus.inProgress => waitPoll statusAt latest timeout (elapsed + 1)
termination_by timeout + 1 - elapsed
decreasing_by omega

/-- `AssistantService._wait_for_run_completion` (timeout defaults to 30). -/
def wait_for_run_completion (statusAt : Nat → RunStatus)
    (latest : List RemoteMessage) (timeout : Nat) : Except GwError String :=
  waitPoll statusAt latest timeout 0

/-- The mutable state of a `ConversationService` instance:
`self._sessions : Dict[int, UserSession]` and
`self._conversations : Dict[str, Conversation]`. -/
structure ServiceState where
  sessions : List (Int × UserSession)
  conversations : List (String × Conversation)
deriving DecidableEq, Repr

/-- A freshly constructed `ConversationService` has empty stores. -/
def emptyState : ServiceState := { sessions := [], conversations := [] }

/-- Lookup in `self._sessions`. -/
def find_session (st : ServiceState) (user_id : Int) : Option UserSession :=
  findAssoc st.sessions user_id

/-- Lookup in `self._conversations`. -/
def find_conversation (st : ServiceState) (conversation_id : String) : Option Conversation :=
  findAssoc st.conversations conversation_id

/-- Store a session under its user id (dict assignment; also models an
in-place mutation of the session object aliased by the dict). -/
def insertSession (st : ServiceState) (user_id : Int) (s : UserSession) : ServiceState :=
  { st with sessions := insertAssoc st.sessions user_id s }

/-- Store a conversation under its id. -/
def insertConversation (st : ServiceState) (conversation_id : String) (c : Conversation) :
    ServiceState :=
  { st with conversations := insertAssoc st.conversations conversation_id c }

/-- `del self._conversations[cid]`. -/
def eraseConversation (st : ServiceState) (conversation_id : String) : ServiceState :=
  { st with conversations := eraseAssoc st.conversations conversation_id }

/-- `ConversationService.get_or_create_session`: returns the stored session
with refreshed activity, or stores and returns a fresh session. -/
def get_or_create_session (now : Int) (freshSid : String) (user_id : Int)
    (st : ServiceState) : UserSession × ServiceState :=
  match find_session st user_id with
  | some s =>
      let s' := s.update_activity now
      (s', insertSession st user_id s')
  | none =>
      let s := UserSession.new freshSid user_id now
      (s, insertSession st user_id s)

/-- State- and trace-level effect of `ConversationService.reset_conversation`,
also returning the session object as left by the Python code (the wrapper
below returns only the boolean).  Best-effort `delete_thread` is recorded in
the trace; it never raises.  The character id is saved across
`session.reset()` and restored. -/
def reset_conversation_core (now : Int) (freshSid : String) (user_id : Int)
    (st : ServiceState) : UserSession × ServiceState × List GwCall :=
  let p := get_or_create_session now freshSid user_id st
  let session := p.1
  let st₁ := p.2
  let calls := if pyFalsy session.thread_id then []
               else [GwCall.deleteThread (session.thread_id.getD "")]
  let st₂ :=
    if !(pyFalsy session.conversation_id)
        && (find_conversation st₁ (session.conversation_id.getD "")).isSome then
      eraseConversation st₁ (session.conversation_id.getD "")
    else st₁
  let s' := { session.reset now with character_id := session.character_id }
  (s', insertSession st₂ user_id s', calls)

/-- `ConversationService.reset_conversation`: the `except` branch is dead in
the model (no step of the body can raise), so the result is always `true`. -/
def reset_conversation (now : Int) (freshSid : String) (user_id : Int)
    (st : ServiceState) : Bool × ServiceState × List GwCall :=
  let r := reset_conversation_core now freshSid user_id st
  (true, r.2.1, r.2.2)

/-- `ConversationService.set_character`.  If the requested character is
already selected, nothing happens beyond the activity refresh performed by
`get_or_create_session`.  Otherwise the conversation is reset first, then the
remote assistant and thread are obtained (failures propagate, leaving the
reset state behind), and finally the session and a fresh conversation are
updated/stored. -/
def set_character (gw : Gateway) (now : Int) (freshSid freshCid : String)
    (user_id : Int) (ch : Character) (st : ServiceState) :
    Except GwError UserSession × ServiceState × List GwCall :=
  let p := get_or_create_session now freshSid user_id st
  let session := p.1
  let st₁ := p.2
  if session.character_id = some ch.id then
    (Except.ok session, st₁, [])
  else
    let r := reset_conversation_core now freshSid user_id st₁
    let rsession := r.1
    let st₂ := r.2.1
    let rcalls := r.2.2
    match gw.get_or_create_assistant ch with
    | Except.error e =>
        (Except.error e, st₂, rcalls ++ [GwCall.getOrCreateAssistant ch.id])
    | Except.ok assistant_id =>
        match gw.create_thread assistant_id user_id ch.id with
        | Except.error e =>
            (Except.error e, st₂,
              rcalls ++ [GwCall.getOrCreateAssistant ch.id,
                         GwCall.createThread assistant_id user_id ch.id])
        | Except.ok thread_id =>
            let s₁ := (rsession.set_character now ch.id).set_assistant_thread now
                        assistant_id thread_id
            let conversation := Conversation.new freshCid user_id ch.id assistant_id
                                  thread_id now
            let st₃ := insertConversation st₂ freshCid conversation
            let s₂ := s₁.set_conversation now freshCid
            (Except.ok s₂, insertSession st₃ user_id s₂,
              rcalls ++ [GwCall.getOrCreateAssistant ch.id,
                         GwCall.createThread assistant_id user_id ch.id])

/-- `ConversationService.send_message`.  Returns `none` when no character /
assistant / thread is set (Python truthiness), when the conversation is
missing, or when the gateway call raises (the `except` branch); on a gateway
failure the already-appended user message is kept. -/
def send_message (gw : Gateway) (now : Int) (freshSid : String) (user_id : Int)
    (message_text : String) (st : ServiceState) :
    Option String × ServiceState × List GwCall :=
  let p := get_or_create_session now freshSid user_id st
  let session := p.1
  let st₁ := p.2
  if pyFalsy session.character_id || pyFalsy session.assistant_id
      || pyFalsy session.thread_id then
    (none, st₁, [])
  else
    match session.conversation_id.bind (find_conversation st₁) with
    | none => (none, st₁, [])
    | some conversation =>
        let conv₁ := conversation.add_user_message now message_text
        let st₂ := insertConversation st₁ conv₁.id conv₁
        let tid := session.thread_id.getD ""
        let aid := session.assistant_id.getD ""
        match gw.send_message tid aid message_text user_id with
        | Except.error _ =>
            (none, st₂, [GwCall.sendAwait tid aid message_text user_id])
        | Except.ok response =>
            let conv₂ := conv₁.add_assistant_message now response
            let st₃ := insertConversation st₂ conv₂.id conv₂
            let session₁ := session.update_activity now
            let st₄ := insertSession st₃ user_id session₁
            (some response, st₄, [GwCall.sendAwait tid aid message_text user_id])

/-- `ConversationService.get_conversation_history`. -/
def get_conversation_history (now : Int) (freshSid : String) (user_id : Int)
    (limit : Nat) (st : ServiceState) : Option Conversation × ServiceState :=
  let p := get_or_create_session now freshSid user_id st
  let session := p.1
  let st₁ := p.2
  if pyFalsy session.conversation_id then (none, st₁)
  else
    match find_conversation st₁ (session.conversation_id.getD "") with
    | none => (none, st₁)
    | some conversation =>
        (some { conversation with
                  messages := conversation.get_recent_messages limit }, st₁)

/-- Removal of one expired user performed inside the cleanup loop: delete its
conversation when the session points at a stored one, then delete the
session. -/
def removeExpiredUser (st : ServiceState) (user_id : Int) : ServiceState :=
  match find_session st user_id with
  | none => st
  | some session =>
      let st₁ :=
        if !(pyFalsy session.conversation_id)
            && (find_conversation st (session.conversation_id.getD "")).isSome then
          eraseConversation st (session.conversation_id.getD "")
        else st
      { st₁ with sessions := eraseAssoc st₁.sessions user_id }

/-- `ConversationService.cleanup_expired_sessions`: collect the users whose
sessions are expired, then remove each together with its conversation,
returning the number removed. -/
def cleanup_expired_sessions (now : Int) (timeout_seconds : Int)
    (st : ServiceState) : Nat × ServiceState :=
  let expired_users :=
    (st.sessions.filter (fun q => q.2.is_expired now timeout_seconds)).map (·.1)
  (expired_users.length, expired_users.foldl removeExpiredUser st)

/-- Invariant of the session store: the remote assistant id and remote thread
id of every stored session are both set or both unset. -/
def SessionsConsistent (st : ServiceState) : Prop :=
  ∀ p ∈ st.sessions, p.2.assistant_id.isSome = p.2.thread_id.isSome

/-- Well-formedness inherited from Python dicts: session keys are unique. -/
def NodupSessionKeys (st : ServiceState) : Prop :=
  (st.sessions.map Prod.fst).Nodup

/-- Well-formedness inherited from Python dicts: conversation keys are unique. -/
def NodupConversationKeys (st : ServiceState) : Prop :=
  (st.conversations.map Prod.fst).Nodup

/-- States reachable from a fresh `ConversationService` by any sequence of the
four public coordinator operations. -/
inductive Reachable : ServiceState → Prop where
  | init : Reachable emptyState
  | step_set_character (gw : Gateway) (now : Int) (f₁ f₂ : String) (uid : Int)
      (ch : Character) (st : ServiceState) :
      Reachable st → Reachable (set_character gw now f₁ f₂ uid ch st).2.1
  | step_send_message (gw : Gateway) (now : Int) (f : String) (uid : Int)
      (text : String) (st : ServiceState) :
      Reachable st → Reachable (send_message gw now f uid text st).2.1
  | step_reset (now : Int) (f : String) (uid : Int) (st : ServiceState) :
      Reachable st → Reachable (reset_conversation now f uid st).2.1
  | step_cleanup (now timeout : Int) (st : ServiceState) :
      Reachable st → Reachable (cleanup_expired_sessions now timeout st).2

/-! ### Concrete fixtures used by witnesses and counterexamples -/

/-- A minimal persona with the default catalog id `riley`. -/
def chW : Character :=
  { id := "riley", name := "Riley", emoji := "", description := "",
    personality := "", greeting := "", image_paths := [], traits := [],
    conversation_style := "" }

/-- A second persona with the default catalog id `nika`. -/
def chN : Character :=
  { id := "nika", name := "Nika", emoji := "", description := "",
    personality := "", greeting := "", image_paths := [], traits := [],
    conversation_style := "" }

/-- A persona under id `keep`, untouched by registrations of other ids. -/
def chKeepW : Character :=
  { id := "keep", name := "Keeper", emoji := "", description := "",
    personality := "", greeting := "", image_paths := [], traits := [],
    conversation_style := "" }

/-- First registration under the id `dup`. -/
def chDupA : Character :=
  { id := "dup", name := "Original", emoji := "", description := "",
    personality := "", greeting := "", image_paths := [], traits := [],
    conversation_style := "" }

/-- Conflicting registration under the same id `dup`. -/
def chDupB : Character :=
  { id := "dup", name := "Replacement", emoji := "", description := "",
    personality := "", greeting := "", image_paths := [], traits := [],
    conversation_style := "" }

/-- A gateway test double whose remote calls all succeed. -/
def gw0 : Gateway :=
  { get_or_create_assistant := fun _ => Except.ok "a1",
    create_thread := fun _ _ _ => Except.ok "t1",
    send_message := fun _ _ _ _ => Except.ok "Test response from assistant" }

/-- A gateway test double whose thread creation fails. -/
def gwBadThread : Gateway :=
  { get_or_create_assistant := fun _ => Except.ok "a2",
    create_thread := fun _ _ _ => Except.error (GwError.apiError "boom"),
    send_message := fun _ _ _ _ => Except.ok "unused" }

/-- A gateway test double whose send operation times out. -/
def gwDown : Gateway :=
  { get_or_create_assistant := fun _ => Except.ok "a1",
    create_thread := fun _ _ _ => Except.ok "t1",
    send_message := fun _ _ _ _ => Except.error (GwError.timeoutErr 30) }

/-- State after user 42 successfully selected persona `riley`. -/
def st1W : ServiceState :=
  (set_character gw0 0 "sid1" "cid1" 42 chW emptyState).2.1

/-- The session stored for user 42 in `st1W`. -/
def s1W : UserSession :=
  { id := "sid1", user_id := 42, character_id := some "riley",
    conversation_id := some "cid1", assistant_id := some "a1",
    thread_id := some "t1", created_at := 0, last_activity := 0,
    is_active := true }

/-- An expired session (last activity 0, observed at time 6, timeout 5). -/
def sExpW : UserSession :=
  { id := "se", user_id := 1, character_id := some "riley",
    conversation_id := some "ce", assistant_id := some "a1",
    thread_id := some "t1", created_at := 0, last_activity := 0,
    is_active := true }

/-- A live session (last activity 6, observed at time 6). -/
def sLiveW : UserSession :=
  { id := "sl", user_id := 2, character_id := some "nika",
    conversation_id := none, assistant_id := some "a2",
    thread_id := some "t2", created_at := 0, last_activity := 6,
    is_active := true }

/-- The conversation belonging to the expired session. -/
def convExpW : Conversation := Conversation.new "ce" 1 "riley" "a1" "t1" 0

/-- A store holding one expired and one live session. -/
def stC7 : ServiceState :=
  { sessions := [(1, sExpW), (2, sLiveW)], conversations := [("ce", convExpW)] }

/-! ### Association-list lemmas -/

theorem findAssoc_eq_none_of_not_mem {κ α : Type} [BEq κ] [LawfulBEq κ]
    (l : List (κ × α)) (k : κ) (h : k ∉ l.map Prod.fst) :
    findAssoc l k = none := by
  induction l with
  | nil => rfl
  | cons p rest ih =>
      obtain ⟨k', v'⟩ := p
      simp only [List.map_cons, List.mem_cons] at h
      push_neg at h
      have hk : ¬ (k' == k) = true := by
        simp only [beq_iff_eq]
        exact fun hc => h.1 hc.symm
      simp [findAssoc, hk, ih h.2]

theorem findAssoc_insertAssoc_self {κ α : Type} [BEq κ] [LawfulBEq κ]
    (l : List (κ × α)) (k : κ) (v : α) :
    findAssoc (insertAssoc l k v) k = some v := by
  induction l with
  | nil => simp [insertAssoc, findAssoc]
  | cons p rest ih =>
      obtain ⟨k', v'⟩ := p
      by_cases h : (k' == k) = true
      · simp [insertAssoc, h, findAssoc]
      · simp [insertAssoc, h, findAssoc, ih]

theorem findAssoc_insertAssoc_ne {κ α : Type} [BEq κ] [LawfulBEq κ]
    (l : List (κ × α)) (k k₀ : κ) (v : α) (hne : k₀ ≠ k) :
    findAssoc (insertAssoc l k v) k₀ = findAssoc l k₀ := by
  induction l with
  | nil =>
      have hk : ¬ (k == k₀) = true := by
        simp only [beq_iff_eq]
        exact fun hc => hne hc.symm
      simp [insertAssoc, findAssoc, hk]
  | cons p rest ih =>
      obtain ⟨k', v'⟩ := p
      by_cases h : (k' == k) = true
      · have hk : k' = k := by simpa using h
        have h₀ : ¬ (k == k₀) = true := by
          simp only [beq_iff_eq]
          exact fun hc => hne hc.symm
        have h₀' : ¬ (k' == k₀) = true := by
          simp only [beq_iff_eq, hk]
          exact fun hc => hne hc.symm
        simp [insertAssoc, h, findAssoc, h₀, h₀']
      · simp [insertAssoc, h, findAssoc, ih]

theorem findAssoc_eraseAssoc_ne {κ α : Type} [BEq κ] [LawfulBEq κ]
    (l : List (κ × α)) (k k₀ : κ) (hne : k₀ ≠ k) :
    findAssoc (eraseAssoc l k) k₀ = findAssoc l k₀ := by
  induction l with
  | nil => rfl
  | cons p rest ih =>
      obtain ⟨k', v'⟩ := p
      by_cases h : (k' == k) = true
      · have hk : k' = k := by simpa using h
        have h₀ : ¬ (k' == k₀) = true := by
          simp only [beq_iff_eq, hk]
          exact fun hc => hne hc.symm
        simp [eraseAssoc, h, findAssoc, h₀]
      · simp [eraseAssoc, h, findAssoc, ih]

theorem findAssoc_eraseAssoc_self {κ α : Type} [BEq κ] [LawfulBEq κ]
    (l : List (κ × α)) (k : κ) (hnd : (l.map Prod.fst).Nodup) :
    findAssoc (eraseAssoc l k) k = none := by
  induction l with
  | nil => rfl
  | cons p rest ih =>
      obtain ⟨k', v'⟩ := p
      simp only [List.map_cons, List.nodup_cons] at hnd
      by_cases h : (k' == k) = true
      · have hk : k' = k := by simpa using h
        have hnm : k ∉ rest.map Prod.fst := hk ▸ hnd.1
        simp [eraseAssoc, h, findAssoc_eq_none_of_not_mem rest k hnm]
      · simp [eraseAssoc, h, findAssoc, ih hnd.2]

theorem eraseAssoc_sublist {κ α : Type} [BEq κ] (l : List (κ × α)) (k : κ) :
    (eraseAssoc l k).Sublist l := by
  induction l with
  | nil => exact List.Sublist.refl _
  | cons p rest ih =>
      obtain ⟨k', v'⟩ := p
      by_cases h : (k' == k) = true
      · simp only [eraseAssoc, h, if_true]
        exact List.Sublist.cons _ (List.Sublist.refl _)
      · simp only [eraseAssoc, h, if_false]
        exact List.Sublist.cons₂ _ ih

theorem nodup_keys_eraseAssoc {κ α : Type} [BEq κ] (l : List (κ × α)) (k : κ)
    (hnd : (l.map Prod.fst).Nodup) : ((eraseAssoc l k).map Prod.fst).Nodup :=
  hnd.sublist ((eraseAssoc_sublist l k).map Prod.fst)

theorem mem_insertAssoc {κ α : Type} [BEq κ] (l : List (κ × α)) (k : κ) (v : α)
    (p : κ × α) (hp : p ∈ insertAssoc l k v) : p ∈ l ∨ p = (k, v) := by
  induction l with
  | nil =>
      simp only [insertAssoc, List.mem_singleton] at hp
      exact Or.inr hp
  | cons q rest ih =>
      obtain ⟨k', v'⟩ := q
      by_cases h : (k' == k) = true
      · simp only [insertAssoc, h, if_true, List.mem_cons] at hp
        rcases hp with h₁ | h₁
        · exact Or.inr h₁
        · exact Or.inl (List.mem_cons_of_mem _ h₁)
      · simp only [insertAssoc, h, Bool.false_eq_true, if_false, List.mem_cons] at hp
        rcases hp with h₁ | h₁
        · exact Or.inl (by simp [h₁])
        · rcases ih h₁ with h₂ | h₂
          · exact Or.inl (List.mem_cons_of_mem _ h₂)
          · exact Or.inr h₂

theorem findAssoc_mem {κ α : Type} [BEq κ] [LawfulBEq κ] (l : List (κ × α))
    (k : κ) (v : α) (h : findAssoc l k = some v) : (k, v) ∈ l := by
  induction l with
  | nil => simp [findAssoc] at h
  | cons p rest ih =>
      obtain ⟨k', v'⟩ := p
      by_cases hk : (k' == k) = true
      · have hkk : k' = k := by simpa using hk
        simp only [findAssoc, hk, if_true, Option.some.injEq] at h
        subst h
        rw [hkk]
        exact List.mem_cons_self _ _
      · simp only [findAssoc, hk, if_false] at h
        exact List.mem_cons_of_mem _ (ih h)

theorem mem_findAssoc_of_nodup {κ α : Type} [BEq κ] [LawfulBEq κ]
    (l : List (κ × α)) (k : κ) (v : α) (hnd : (l.map Prod.fst).Nodup)
    (h : (k, v) ∈ l) : findAssoc l k = some v := by
  induction l with
  | nil => simp at h
  | cons p rest ih =>
      obtain ⟨k', v'⟩ := p
      simp only [List.map_cons, List.nodup_cons] at hnd
      rcases List.mem_cons.mp h with h' | h'
      · injection h' with hk hv
        subst hk
        subst hv
        simp [findAssoc]
      · have hkmem : k ∈ rest.map Prod.fst := List.mem_map_of_mem Prod.fst h'
        have hk : ¬ (k' == k) = true := by
          simp only [beq_iff_eq]
          exact fun hc => hnd.1 (by rw [hc]; exact hkmem)
        simp [findAssoc, hk, ih hnd.2 h']

/-! ### Service-state helper lemmas -/

theorem find_session_insertSession_self (st : ServiceState) (uid : Int)
    (s : UserSession) : find_session (insertSession st uid s) uid = some s :=
  findAssoc_insertAssoc_self st.sessions uid s

theorem find_session_insertSession_ne (st : ServiceState) (uid uid₀ : Int)
    (s : UserSession) (h : uid₀ ≠ uid) :
    find_session (insertSession st uid s) uid₀ = find_session st uid₀ :=
  findAssoc_insertAssoc_ne st.sessions uid uid₀ s h

theorem find_session_insertConversation (st : ServiceState) (cid : String)
    (c : Conversation) (uid : Int) :
    find_session (insertConversation st cid c) uid = find_session st uid := rfl

theorem find_session_eraseConversation (st : ServiceState) (cid : String)
    (uid : Int) :
    find_session (eraseConversation st cid) uid = find_session st uid := rfl

theorem conversations_insertSession (st : ServiceState) (uid : Int)
    (s : UserSession) :
    (insertSession st uid s).conversations = st.conversations := rfl

/-! ### Claim C8 -/

/-- Claim C8: serialising a session through `to_dict` and reconstructing it
through `from_dict` yields a session with the same character id, assistant
id, thread id and active flag. -/
theorem session_record_roundtrip (s : UserSession) :
    (UserSession.from_dict (UserSession.to_dict s)).character_id = s.character_id ∧
    (UserSession.from_dict (UserSession.to_dict s)).assistant_id = s.assistant_id ∧
    (UserSession.from_dict (UserSession.to_dict s)).thread_id = s.thread_id ∧
    (UserSession.from_dict (UserSession.to_dict s)).is_active = s.is_active :=
  ⟨rfl, rfl, rfl, rfl⟩

/-! ### Claim C9 -/

/-- Claim C9 counterexample: registering a persona whose id already exists in
the repository neither fails nor leaves the existing entry unchanged — the
entry is silently overwritten by the new persona. -/
theorem add_character_overwrites :
    (((CharacterRepository.mk []).add_character chDupA).add_character
        chDupB).get_character "dup" = some chDupB ∧ chDupB ≠ chDupA := by
  refine ⟨rfl, ?_⟩
  intro h
  have : chDupB.name = chDupA.name := by rw [h]
  simp [chDupA, chDupB] at this

/-- Claim C9 amended: `add_character` is a total dict assignment — it never
fails; after the call the registry maps the persona's id to the new persona
(overwriting any previous entry for that id) and every other id is
unchanged. -/
theorem add_character_assigns (repo : CharacterRepository) (ch : Character) :
    (repo.add_character ch).get_character ch.id = some ch ∧
    ∀ cid, cid ≠ ch.id →
      (repo.add_character ch).get_character cid = repo.get_character cid := by
  constructor
  · exact findAssoc_insertAssoc_self _ _ _
  · intro cid hne
    exact findAssoc_insertAssoc_ne _ _ _ _ hne

/-- Witness for the amended C9 claim at a concrete repository. -/
theorem add_character_assigns_witness :
    ((CharacterRepository.mk [("keep", chKeepW)]).add_character
        chDupB).get_character "dup" = some chDupB ∧
    ((CharacterRepository.mk [("keep", chKeepW)]).add_character
        chDupB).get_character "keep" = some chKeepW := by
  constructor
  · exact (add_character_assigns (CharacterRepository.mk [("keep", chKeepW)]) chDupB).1
  · rw [(add_character_assigns (CharacterRepository.mk [("keep", chKeepW)])
        chDupB).2 "keep" (by decide)]
    rfl

/-! ### Claim C2 -/

/-- Claim C2: `send_message` for a user whose session is missing or has no
character / assistant / thread set returns the not-ready signal `none` (a
value distinct by type from both a typed error and a non-empty success) and
performs no gateway call. -/
theorem send_message_not_ready (gw : Gateway) (now : Int) (freshSid : String)
    (uid : Int) (text : String) (st : ServiceState)
    (h : ∀ s, find_session st uid = some s →
      s.character_id = none ∨ s.assistant_id = none ∨ s.thread_id = none) :
    (send_message gw now freshSid uid text st).1 = none ∧
    (send_message gw now freshSid uid text st).2.2 = [] := by
  cases hfind : find_session st uid with
  | none =>
      constructor <;>
        simp [send_message, get_or_create_session, hfind, UserSession.new, pyFalsy]
  | some s =>
      rcases h s hfind with h' | h' | h' <;>
        constructor <;>
          simp [send_message, get_or_create_session, hfind,
                UserSession.update_activity, pyFalsy, h']

/-- Witness for C2: a user with no session at all gets `none` and no remote
call. -/
theorem send_message_not_ready_witness :
    (send_message gw0 0 "sidW" 42 "hello" emptyState).1 = none ∧
    (send_message gw0 0 "sidW" 42 "hello" emptyState).2.2 = [] :=
  send_message_not_ready gw0 0 "sidW" 42 "hello" emptyState
    (fun s hs => by simp [find_session, findAssoc, emptyState] at hs)

theorem find_conversation_insertSession (st : ServiceState) (uid : Int)
    (s : UserSession) (cid : String) :
    find_conversation (insertSession st uid s) cid = find_conversation st cid := rfl

theorem get_conversation_history_no_conv (now : Int) (fsid : String) (uid : Int)
    (limit : Nat) (st : ServiceState) (s : UserSession)
    (hf : find_session st uid = some s) (hc : s.conversation_id = none) :
    (get_conversation_history now fsid uid limit st).1 = none := by
  simp [get_conversation_history, get_or_create_session, hf,
        UserSession.update_activity, pyFalsy, hc]

/-! ### Claim C6 -/

/-- Claim C6: after `reset_conversation` for a user with a selected persona,
the local conversation is discarded (its entry is gone from the store and the
session no longer references any conversation, so the history query yields
nothing), the assistant / thread / conversation fields are cleared, and the
persona id is unchanged. -/
theorem reset_preserves_persona (now : Int) (freshSid : String) (uid : Int)
    (st : ServiceState) (s : UserSession) (c₀ : String)
    (hndc : NodupConversationKeys st)
    (hs : find_session st uid = some s) (hc : s.character_id = some c₀) :
    (reset_conversation now freshSid uid st).1 = true ∧
    (∃ s', find_session (reset_conversation now freshSid uid st).2.1 uid = some s' ∧
      s'.character_id = some c₀ ∧ s'.assistant_id = none ∧
      s'.thread_id = none ∧ s'.conversation_id = none) ∧
    (∀ cid, s.conversation_id = some cid → cid.isEmpty = false →
      find_conversation (reset_conversation now freshSid uid st).2.1 cid = none) ∧
    (get_conversation_history now freshSid uid 10
        (reset_conversation now freshSid uid st).2.1).1 = none := by
  have hstep : (reset_conversation now freshSid uid st).2.1 =
      insertSession
        (if (!(pyFalsy s.conversation_id)
            && (find_conversation (insertSession st uid (s.update_activity now))
                  (s.conversation_id.getD "")).isSome) = true then
           eraseConversation (insertSession st uid (s.update_activity now))
             (s.conversation_id.getD "")
         else insertSession st uid (s.update_activity now))
        uid
        { id := s.id, user_id := s.user_id, character_id := s.character_id,
          conversation_id := none, assistant_id := none, thread_id := none,
          created_at := s.created_at, last_activity := now,
          is_active := s.is_active } := by
    simp [reset_conversation, reset_conversation_core, get_or_create_session, hs,
          UserSession.update_activity, UserSession.reset]
  refine ⟨rfl, ?_, ?_, ?_⟩
  · have hfind : find_session (reset_conversation now freshSid uid st).2.1 uid =
        some { id := s.id, user_id := s.user_id, character_id := s.character_id,
               conversation_id := none, assistant_id := none, thread_id := none,
               created_at := s.created_at, last_activity := now,
               is_active := s.is_active } := by
      rw [hstep]
      exact find_session_insertSession_self _ _ _
    exact ⟨_, hfind, hc, rfl, rfl, rfl⟩
  · intro cid hcid hne
    rw [hstep, find_conversation_insertSession, hcid]
    simp only [Option.getD_some, pyFalsy, hne, Bool.not_false, Bool.true_and]
    split
    · exact findAssoc_eraseAssoc_self st.conversations cid hndc
    · rename_i hmem
      exact Option.not_isSome_iff_eq_none.mp hmem
  · rw [hstep]
    exact get_conversation_history_no_conv now freshSid uid 10 _ _
      (find_session_insertSession_self _ _ _) rfl

/-- Witness for C6 at the concrete post-selection state `st1W`. -/
theorem reset_preserves_persona_witness :
    (reset_conversation 1 "sidR" 42 st1W).1 = true ∧
    (∃ s', find_session (reset_conversation 1 "sidR" 42 st1W).2.1 42 = some s' ∧
      s'.character_id = some "riley" ∧ s'.assistant_id = none ∧
      s'.thread_id = none ∧ s'.conversation_id = none) ∧
    (∀ cid, s1W.conversation_id = some cid → cid.isEmpty = false →
      find_conversation (reset_conversation 1 "sidR" 42 st1W).2.1 cid = none) ∧
    (get_conversation_history 1 "sidR" 42 10
        (reset_conversation 1 "sidR" 42 st1W).2.1).1 = none := by
  refine reset_preserves_persona 1 "sidR" 42 st1W s1W "riley" ?_ rfl rfl
  unfold NodupConversationKeys
  decide

/-! ### Claim C1 -/

theorem get_or_create_session_eq (now : Int) (f : String) (uid : Int)
    (st : ServiceState) :
    get_or_create_session now f uid st =
      ((get_or_create_session now f uid st).1,
        insertSession st uid (get_or_create_session now f uid st).1) := by
  rw [get_or_create_session]
  cases find_session st uid <;> rfl

theorem set_character_ok_find (gw : Gateway) (now : Int) (f₁ f₂ : String)
    (uid : Int) (ch : Character) (st : ServiceState) (s₁ : UserSession)
    (st' : ServiceState) (calls : List GwCall)
    (h : set_character gw now f₁ f₂ uid ch st = (Except.ok s₁, st', calls)) :
    find_session st' uid = some s₁ ∧ s₁.character_id = some ch.id := by
  rw [set_character, get_or_create_session_eq] at h
  dsimp only at h
  split at h
  · rename_i hguard
    simp only [Prod.mk.injEq, Except.ok.injEq] at h
    obtain ⟨h₁, h₂, h₃⟩ := h
    subst h₁
    subst h₂
    exact ⟨find_session_insertSession_self _ _ _, hguard⟩
  · split at h
    · simp at h
    · split at h
      · simp at h
      · simp only [Prod.mk.injEq, Except.ok.injEq] at h
        obtain ⟨h₁, h₂, h₃⟩ := h
        subst h₁
        subst h₂
        exact ⟨find_session_insertSession_self _ _ _, rfl⟩

/-- Claim C1: after a successful `set_character(U, P)`, calling it again with
the same persona produces no remote call at all (no agent lookup/creation, no
thread creation, no thread deletion), succeeds, and leaves the stored
session's persona / assistant / thread / conversation ids and the whole
conversation store unchanged (only the activity timestamp is refreshed). -/
theorem select_persona_idempotent (gw : Gateway) (now now' : Int)
    (f₁ f₂ f₃ f₄ : String) (uid : Int) (ch : Character) (st : ServiceState)
    (s₁ : UserSession) (st' : ServiceState) (calls₁ : List GwCall)
    (h : set_character gw now f₁ f₂ uid ch st = (Except.ok s₁, st', calls₁)) :
    (set_character gw now' f₃ f₄ uid ch st').2.2 = [] ∧
    (set_character gw now' f₃ f₄ uid ch st').1
      = Except.ok (s₁.update_activity now') ∧
    find_session (set_character gw now' f₃ f₄ uid ch st').2.1 uid
      = some (s₁.update_activity now') ∧
    (s₁.update_activity now').character_id = s₁.character_id ∧
    (s₁.update_activity now').assistant_id = s₁.assistant_id ∧
    (s₁.update_activity now').thread_id = s₁.thread_id ∧
    (s₁.update_activity now').conversation_id = s₁.conversation_id ∧
    (set_character gw now' f₃ f₄ uid ch st').2.1.conversations
      = st'.conversations := by
  obtain ⟨hfind, hchar⟩ := set_character_ok_find gw now f₁ f₂ uid ch st s₁ st' calls₁ h
  have hchar' : (s₁.update_activity now').character_id = some ch.id := hchar
  have hsession : get_or_create_session now' f₃ uid st' =
      (s₁.update_activity now', insertSession st' uid (s₁.update_activity now')) := by
    rw [get_or_create_session, hfind]
  have hred : set_character gw now' f₃ f₄ uid ch st' =
      (Except.ok (s₁.update_activity now'),
        insertSession st' uid (s₁.update_activity now'), []) := by
    rw [set_character, hsession]
    dsimp only
    rw [if_pos hchar']
  rw [hred]
  exact ⟨rfl, rfl, find_session_insertSession_self _ _ _, rfl, rfl, rfl, rfl,
    conversations_insertSession _ _ _⟩

/-- Witness for C1: user 42 selects `riley` twice in a row starting from a
fresh service. -/
theorem select_persona_idempotent_witness :
    (set_character gw0 1 "sid2" "cid2" 42 chW st1W).2.2 = [] ∧
    (set_character gw0 1 "sid2" "cid2" 42 chW st1W).1
      = Except.ok (s1W.update_activity 1) ∧
    find_session (set_character gw0 1 "sid2" "cid2" 42 chW st1W).2.1 42
      = some (s1W.update_activity 1) ∧
    (s1W.update_activity 1).character_id = s1W.character_id ∧
    (s1W.update_activity 1).assistant_id = s1W.assistant_id ∧
    (s1W.update_activity 1).thread_id = s1W.thread_id ∧
    (s1W.update_activity 1).conversation_id = s1W.conversation_id ∧
    (set_character gw0 1 "sid2" "cid2" 42 chW st1W).2.1.conversations
      = st1W.conversations :=
  select_persona_idempotent gw0 0 1 "sid1" "cid1" "sid2" "cid2" 42 chW emptyState
    s1W st1W
    [GwCall.getOrCreateAssistant "riley", GwCall.createThread "a1" 42 "riley"]
    rfl

/-! ### Claim C4 -/

theorem reset_conversation_core_state (now : Int) (fsid : String) (uid : Int)
    (st : ServiceState) (s : UserSession) (hs : find_session st uid = some s) :
    reset_conversation_core now fsid uid st =
      ({ id := s.id, user_id := s.user_id, character_id := s.character_id,
         conversation_id := none, assistant_id := none, thread_id := none,
         created_at := s.created_at, last_activity := now,
         is_active := s.is_active },
       insertSession
         (if (!(pyFalsy s.conversation_id)
             && (find_conversation (insertSession st uid (s.update_activity now))
                   (s.conversation_id.getD "")).isSome) = true then
            eraseConversation (insertSession st uid (s.update_activity now))
              (s.conversation_id.getD "")
          else insertSession st uid (s.update_activity now))
         uid
         { id := s.id, user_id := s.user_id, character_id := s.character_id,
           conversation_id := none, assistant_id := none, thread_id := none,
           created_at := s.created_at, last_activity := now,
           is_active := s.is_active },
       if pyFalsy s.thread_id then []
       else [GwCall.deleteThread (s.thread_id.getD "")]) := by
  simp [reset_conversation_core, get_or_create_session, hs,
        UserSession.update_activity, UserSession.reset]

/-- Claim C4 counterexample: user 42 is READY with persona `riley`, assistant
`a1`, thread `t1`; selecting `nika` with a gateway whose thread creation
fails does not leave the prior session state untouched — the stored session
differs from the one before the call (its assistant/thread/conversation ids
were cleared by the reset that runs before the remote calls). -/
theorem select_persona_failure_counterexample :
    find_session (set_character gwBadThread 5 "sidF" "cidF" 42 chN st1W).2.1 42
      ≠ find_session st1W 42 := by
  decide

/-- Claim C4 amended: when `ensure_agent` or `create_thread` fails during a
persona change, the operation fails, but the session is not left as it was:
the reset performed before the remote calls sticks.  The persona id keeps its
prior value while the assistant / thread / conversation ids are cleared and
the prior local conversation is deleted; no element of the new
persona/agent/thread triple is committed. -/
theorem select_persona_failure_resets (gw : Gateway) (now : Int) (f₁ f₂ : String)
    (uid : Int) (ch : Character) (st : ServiceState) (s : UserSession)
    (hndc : NodupConversationKeys st)
    (hs : find_session st uid = some s) (hch : ¬ s.character_id = some ch.id)
    (hfail : ∀ aid, gw.get_or_create_assistant ch = Except.ok aid →
      ∃ e, gw.create_thread aid uid ch.id = Except.error e) :
    (∃ e, (set_character gw now f₁ f₂ uid ch st).1 = Except.error e) ∧
    (∃ s', find_session (set_character gw now f₁ f₂ uid ch st).2.1 uid = some s' ∧
      s'.character_id = s.character_id ∧ s'.assistant_id = none ∧
      s'.thread_id = none ∧ s'.conversation_id = none) ∧
    (∀ cid, s.conversation_id = some cid → cid.isEmpty = false →
      find_conversation (set_character gw now f₁ f₂ uid ch st).2.1 cid = none) := by
  have hsession : get_or_create_session now f₁ uid st =
      (s.update_activity now, insertSession st uid (s.update_activity now)) := by
    rw [get_or_create_session, hs]
  have hguard : ¬ ((s.update_activity now).character_id = some ch.id) := hch
  have hcore := reset_conversation_core_state now f₁ uid
      (insertSession st uid (s.update_activity now)) (s.update_activity now)
      (find_session_insertSession_self _ _ _)
  cases hga : gw.get_or_create_assistant ch with
  | error e =>
      have hred : (set_character gw now f₁ f₂ uid ch st).2.1 =
          (reset_conversation_core now f₁ uid
            (insertSession st uid (s.update_activity now))).2.1 := by
        rw [set_character, hsession]
        dsimp only
        rw [if_neg hguard, hga]
      have hv : (set_character gw now f₁ f₂ uid ch st).1 = Except.error e := by
        rw [set_character, hsession]
        dsimp only
        rw [if_neg hguard, hga]
      refine ⟨⟨e, hv⟩, ?_, ?_⟩
      · rw [hred, hcore]
        dsimp only [UserSession.update_activity]
        exact ⟨_, find_session_insertSession_self _ _ _, rfl, rfl, rfl, rfl⟩
      · intro cid hcid hne
        rw [hred, hcore]
        dsimp only [UserSession.update_activity]
        rw [find_conversation_insertSession, hcid]
        simp only [Option.getD_some, pyFalsy, hne, Bool.not_false, Bool.true_and]
        split
        · exact findAssoc_eraseAssoc_self st.conversations cid hndc
        · rename_i hmem
          exact Option.not_isSome_iff_eq_none.mp hmem
  | ok aid =>
      obtain ⟨e, hct⟩ := hfail aid hga
      have hred : (set_character gw now f₁ f₂ uid ch st).2.1 =
          (reset_conversation_core now f₁ uid
            (insertSession st uid (s.update_activity now))).2.1 := by
        rw [set_character, hsession]
        dsimp only
        rw [if_neg hguard, hga]
        dsimp only
        rw [hct]
      have hv : (set_character gw now f₁ f₂ uid ch st).1 = Except.error e := by
        rw [set_character, hsession]
        dsimp only
        rw [if_neg hguard, hga]
        dsimp only
        rw [hct]
      refine ⟨⟨e, hv⟩, ?_, ?_⟩
      · rw [hred, hcore]
        dsimp only [UserSession.update_activity]
        exact ⟨_, find_session_insertSession_self _ _ _, rfl, rfl, rfl, rfl⟩
      · intro cid hcid hne
        rw [hred, hcore]
        dsimp only [UserSession.update_activity]
        rw [find_conversation_insertSession, hcid]
        simp only [Option.getD_some, pyFalsy, hne, Bool.not_false, Bool.true_and]
        split
        · exact findAssoc_eraseAssoc_self st.conversations cid hndc
        · rename_i hmem
          exact Option.not_isSome_iff_eq_none.mp hmem

/-- Witness for the amended C4 claim: ready user 42 selects `nika` while
thread creation fails. -/
theorem select_persona_failure_resets_witness :
    (∃ e, (set_character gwBadThread 5 "sidF" "cidF" 42 chN st1W).1
        = Except.error e) ∧
    (∃ s', find_session (set_character gwBadThread 5 "sidF" "cidF" 42 chN
        st1W).2.1 42 = some s' ∧
      s'.character_id = s1W.character_id ∧ s'.assistant_id = none ∧
      s'.thread_id = none ∧ s'.conversation_id = none) ∧
    (∀ cid, s1W.conversation_id = some cid → cid.isEmpty = false →
      find_conversation (set_character gwBadThread 5 "sidF" "cidF" 42 chN
        st1W).2.1 cid = none) := by
  refine select_persona_failure_resets gwBadThread 5 "sidF" "cidF" 42 chN st1W
    s1W ?_ rfl (by decide) ?_
  · unfold NodupConversationKeys
    decide
  · intro aid ha
    exact ⟨GwError.apiError "boom", rfl⟩

/-! ### Claim C5 -/

theorem waitPoll_inProgress (latest : List RemoteMessage) (timeout : Nat) :
    ∀ elapsed, waitPoll (fun _ => RunStatus.inProgress) latest timeout elapsed
      = Except.error (GwError.timeoutErr timeout) := by
  have key : ∀ fuel elapsed, timeout + 1 - elapsed ≤ fuel →
      waitPoll (fun _ => RunStatus.inProgress) latest timeout elapsed
        = Except.error (GwError.timeoutErr timeout) := by
    intro fuel
    induction fuel with
    | zero =>
        intro elapsed hle
        have h : timeout < elapsed := by omega
        rw [waitPoll]
        simp [h]
    | succ n ih =>
        intro elapsed hle
        by_cases h : timeout < elapsed
        · rw [waitPoll]
          simp [h]
        · rw [waitPoll, dif_neg h]
          exact ih (elapsed + 1) (by omega)
  intro elapsed
  exact key (timeout + 1 - elapsed) elapsed le_rfl

theorem wait_for_run_completion_failed (latest : List RemoteMessage)
    (timeout : Nat) :
    wait_for_run_completion (fun _ => RunStatus.failed) latest timeout
      = Except.error (GwError.runFailed "failed") := by
  rw [wait_for_run_completion, waitPoll, dif_neg (by omega : ¬ timeout < 0)]

theorem wait_for_run_completion_noResponse (timeout : Nat) :
    wait_for_run_completion (fun _ => RunStatus.completed) [] timeout
      = Except.error GwError.noResponse := by
  rw [wait_for_run_completion, waitPoll, dif_neg (by omega : ¬ timeout < 0)]
  rfl

theorem send_message_gateway_error_none (gw : Gateway) (e : GwError)
    (hgw : ∀ t a m u, gw.send_message t a m u = Except.error e)
    (now : Int) (fsid : String) (uid : Int) (text : String) (st : ServiceState) :
    (send_message gw now fsid uid text st).1 = none := by
  rw [send_message, get_or_create_session_eq]
  dsimp only
  split
  · rfl
  · split
    · rfl
    · rw [hgw]

/-- Claim C5 counterexample: user 42 is READY (its session holds thread
`t1`), yet when the gateway send fails the coordinator returns `none` — the
very value returned for a user with no session at all — instead of
propagating a typed failure to its caller. -/
theorem gateway_failure_swallowed_counterexample :
    (find_session st1W 42).map (fun s => s.thread_id) = some (some "t1") ∧
    (send_message gwDown 5 "sidC" 42 "hello" st1W).1 = none ∧
    (send_message gwDown 5 "sidC" 99 "hello" emptyState).1 = none := by
  decide

/-- Claim C5 amended: gateway failures are typed only inside the gateway
layer — the polling loop raises `TimeoutError` when the timeout elapses,
`RuntimeError` on a failed / cancelled / expired run, `ValueError` when a
completed run has no extractable text — but `ConversationService.send_message`
catches every exception and returns `None`, the same value as the not-ready
signal, so no typed failure reaches the coordinator's caller. -/
theorem gateway_failure_swallowed (gw : Gateway) (e : GwError)
    (hgw : ∀ t a m u, gw.send_message t a m u = Except.error e)
    (now : Int) (fsid : String) (uid : Int) (text : String) (st : ServiceState) :
    (send_message gw now fsid uid text st).1 = none ∧
    (∀ (latest : List RemoteMessage) (timeout : Nat),
      wait_for_run_completion (fun _ => RunStatus.inProgress) latest timeout
        = Except.error (GwError.timeoutErr timeout)) ∧
    (∀ (latest : List RemoteMessage) (timeout : Nat),
      wait_for_run_completion (fun _ => RunStatus.failed) latest timeout
        = Except.error (GwError.runFailed "failed")) ∧
    (∀ timeout : Nat,
      wait_for_run_completion (fun _ => RunStatus.completed) [] timeout
        = Except.error GwError.noResponse) :=
  ⟨send_message_gateway_error_none gw e hgw now fsid uid text st,
   fun latest timeout => waitPoll_inProgress latest timeout 0,
   fun latest timeout => wait_for_run_completion_failed latest timeout,
   fun timeout => wait_for_run_completion_noResponse timeout⟩

/-- Witness for the amended C5 claim with the timing-out gateway double. -/
theorem gateway_failure_swallowed_witness :
    (send_message gwDown 5 "sidC" 42 "hello" st1W).1 = none ∧
    wait_for_run_completion (fun _ => RunStatus.inProgress) [] 3
      = Except.error (GwError.timeoutErr 3) ∧
    wait_for_run_completion (fun _ => RunStatus.failed) [] 3
      = Except.error (GwError.runFailed "failed") ∧
    wait_for_run_completion (fun _ => RunStatus.completed) [] 3
      = Except.error GwError.noResponse := by
  obtain ⟨h₁, h₂, h₃, h₄⟩ := gateway_failure_swallowed gwDown
    (GwError.timeoutErr 30) (fun t a m u => rfl) 5 "sidC" 42 "hello" st1W
  exact ⟨h₁, h₂ [] 3, h₃ [] 3, h₄ 3⟩

/-! ### Claim C10 -/

theorem reset_conversation_core_state_of_pair (now : Int) (fsid : String)
    (uid : Int) (st : ServiceState) (x : UserSession)
    (hsession : get_or_create_session now fsid uid st
      = (x, insertSession st uid x)) :
    reset_conversation_core now fsid uid st =
      ({ id := x.id, user_id := x.user_id, character_id := x.character_id,
         conversation_id := none, assistant_id := none, thread_id := none,
         created_at := x.created_at, last_activity := now,
         is_active := x.is_active },
       insertSession
         (if (!(pyFalsy x.conversation_id)
             && (find_conversation (insertSession st uid x)
                   (x.conversation_id.getD "")).isSome) = true then
            eraseConversation (insertSession st uid x)
              (x.conversation_id.getD "")
          else insertSession st uid x)
         uid
         { id := x.id, user_id := x.user_id, character_id := x.character_id,
           conversation_id := none, assistant_id := none, thread_id := none,
           created_at := x.created_at, last_activity := now,
           is_active := x.is_active },
       if pyFalsy x.thread_id then []
       else [GwCall.deleteThread (x.thread_id.getD "")]) := by
  rw [reset_conversation_core, hsession]
  simp [UserSession.reset]

theorem set_character_session_after (gw : Gateway) (now : Int) (f₁ f₂ : String)
    (uid : Int) (ch : Character) (st : ServiceState) (x : UserSession)
    (hsession : get_or_create_session now f₁ uid st
      = (x, insertSession st uid x))
    (hx : x.last_activity = now) :
    ∃ s', find_session (set_character gw now f₁ f₂ uid ch st).2.1 uid = some s' ∧
      s'.last_activity = now ∧ s'.is_active = x.is_active := by
  have hcore := reset_conversation_core_state now f₁ uid (insertSession st uid x)
      x (find_session_insertSession_self _ _ _)
  rw [set_character, hsession]
  dsimp only
  split
  · exact ⟨x, find_session_insertSession_self _ _ _, hx, rfl⟩
  · rw [hcore]
    dsimp only
    split
    · exact ⟨_, find_session_insertSession_self _ _ _, rfl, rfl⟩
    · split
      · exact ⟨_, find_session_insertSession_self _ _ _, rfl, rfl⟩
      · exact ⟨_, find_session_insertSession_self _ _ _, rfl, rfl⟩

theorem send_message_session_after (gw : Gateway) (now : Int) (f : String)
    (uid : Int) (text : String) (st : ServiceState) (x : UserSession)
    (hsession : get_or_create_session now f uid st = (x, insertSession st uid x))
    (hx : x.last_activity = now) :
    ∃ s', find_session (send_message gw now f uid text st).2.1 uid = some s' ∧
      s'.last_activity = now ∧ s'.is_active = x.is_active := by
  rw [send_message, hsession]
  dsimp only
  split
  · exact ⟨x, find_session_insertSession_self _ _ _, hx, rfl⟩
  · split
    · exact ⟨x, find_session_insertSession_self _ _ _, hx, rfl⟩
    · split
      · refine ⟨x, ?_, hx, rfl⟩
        rw [find_session_insertConversation]
        exact find_session_insertSession_self _ _ _
      · exact ⟨_, find_session_insertSession_self _ _ _, rfl, rfl⟩

theorem reset_conversation_session_after (now : Int) (f : String) (uid : Int)
    (st : ServiceState) (x : UserSession)
    (hsession : get_or_create_session now f uid st = (x, insertSession st uid x)) :
    (reset_conversation now f uid st).1 = true ∧
    ∃ s', find_session (reset_conversation now f uid st).2.1 uid = some s' ∧
      s'.last_activity = now ∧ s'.is_active = x.is_active ∧
      s'.character_id = x.character_id ∧ s'.conversation_id = none ∧
      s'.assistant_id = none ∧ s'.thread_id = none := by
  have hcore := reset_conversation_core_state_of_pair now f uid st x hsession
  refine ⟨rfl, ?_⟩
  rw [show (reset_conversation now f uid st).2.1
    = (reset_conversation_core now f uid st).2.1 from rfl, hcore]
  exact ⟨_, find_session_insertSession_self _ _ _, rfl, rfl, rfl, rfl, rfl, rfl⟩

theorem get_conversation_history_session_after (now : Int) (f : String)
    (uid : Int) (limit : Nat) (st : ServiceState) (x : UserSession)
    (hsession : get_or_create_session now f uid st = (x, insertSession st uid x))
    (hx : x.last_activity = now) :
    ∃ s', find_session (get_conversation_history now f uid limit st).2 uid
        = some s' ∧
      s'.last_activity = now ∧ s'.is_active = x.is_active := by
  rw [get_conversation_history, hsession]
  dsimp only
  split
  · exact ⟨x, find_session_insertSession_self _ _ _, hx, rfl⟩
  · split
    · exact ⟨x, find_session_insertSession_self _ _ _, hx, rfl⟩
    · exact ⟨x, find_session_insertSession_self _ _ _, hx, rfl⟩

/-- Claim C10: every public coordinator operation keyed by a user id first
ensures a session exists — storing a fresh persona-less session when absent,
even when the operation then reports not-ready or fails — and refreshes the
stored session's activity timestamp to the current time, which (for an
active session and any non-negative timeout) makes it non-expired at that
instant. -/
theorem operations_ensure_session (gw : Gateway) (now : Int) (f₁ f₂ : String)
    (uid : Int) (ch : Character) (text : String) (limit : Nat)
    (st : ServiceState) :
    (find_session st uid = none →
      (∃ s', find_session (set_character gw now f₁ f₂ uid ch st).2.1 uid
          = some s') ∧
      (find_session (send_message gw now f₁ uid text st).2.1 uid
          = some (UserSession.new f₁ uid now) ∧
        (send_message gw now f₁ uid text st).1 = none) ∧
      (find_session (reset_conversation now f₁ uid st).2.1 uid
          = some (UserSession.new f₁ uid now) ∧
        (reset_conversation now f₁ uid st).1 = true) ∧
      (find_session (get_conversation_history now f₁ uid limit st).2 uid
          = some (UserSession.new f₁ uid now) ∧
        (get_conversation_history now f₁ uid limit st).1 = none)) ∧
    (∀ s, find_session st uid = some s →
      (∃ s', find_session (set_character gw now f₁ f₂ uid ch st).2.1 uid
          = some s' ∧ s'.last_activity = now ∧ s'.is_active = s.is_active) ∧
      (∃ s', find_session (send_message gw now f₁ uid text st).2.1 uid
          = some s' ∧ s'.last_activity = now ∧ s'.is_active = s.is_active) ∧
      (∃ s', find_session (reset_conversation now f₁ uid st).2.1 uid
          = some s' ∧ s'.last_activity = now ∧ s'.is_active = s.is_active) ∧
      (∃ s', find_session (get_conversation_history now f₁ uid limit st).2 uid
          = some s' ∧ s'.last_activity = now ∧ s'.is_active = s.is_active)) ∧
    (∀ s' : UserSession, s'.last_activity = now → s'.is_active = true →
      ∀ t : Int, 0 ≤ t → s'.is_expired now t = false) := by
  refine ⟨?_, ?_, ?_⟩
  · intro hnone
    have hsession : get_or_create_session now f₁ uid st =
        (UserSession.new f₁ uid now,
          insertSession st uid (UserSession.new f₁ uid now)) := by
      rw [get_or_create_session, hnone]
    refine ⟨set_character_session_after gw now f₁ f₂ uid ch st _ hsession rfl
        |>.imp (fun s' h => h.1), ?_, ?_, ?_⟩
    · constructor
      · rw [send_message, hsession]
        exact find_session_insertSession_self _ _ _
      · rw [send_message, hsession]
        rfl
    · constructor
      · rw [show (reset_conversation now f₁ uid st).2.1
          = (reset_conversation_core now f₁ uid st).2.1 from rfl,
          reset_conversation_core_state_of_pair now f₁ uid st _ hsession]
        exact find_session_insertSession_self _ _ _
      · rfl
    · constructor
      · rw [get_conversation_history, hsession]
        exact find_session_insertSession_self _ _ _
      · rw [get_conversation_history, hsession]
        rfl
  · intro s hs
    have hsession : get_or_create_session now f₁ uid st =
        (s.update_activity now, insertSession st uid (s.update_activity now)) := by
      rw [get_or_create_session, hs]
    exact ⟨set_character_session_after gw now f₁ f₂ uid ch st
        (s.update_activity now) hsession rfl,
      send_message_session_after gw now f₁ uid text st
        (s.update_activity now) hsession rfl,
      (reset_conversation_session_after now f₁ uid st
        (s.update_activity now) hsession).2.imp
        (fun s' h => ⟨h.1, h.2.1, h.2.2.1⟩),
      get_conversation_history_session_after now f₁ uid limit st
        (s.update_activity now) hsession rfl⟩
  · intro s' hla hact t ht
    simp only [UserSession.is_expired, hact, Bool.not_true, Bool.false_eq_true,
      if_false, hla, decide_eq_false_iff_not, not_lt]
    omega

/-- Witness for C10: a fresh user 77 and the ready user 42. -/
theorem operations_ensure_session_witness :
    (find_session (send_message gw0 7 "sidE" 77 "hi" emptyState).2.1 77
        = some (UserSession.new "sidE" 77 7) ∧
      (send_message gw0 7 "sidE" 77 "hi" emptyState).1 = none) ∧
    (∃ s', find_session (send_message gw0 7 "sidE" 42 "hi" st1W).2.1 42
        = some s' ∧ s'.last_activity = 7 ∧ s'.is_active = s1W.is_active) := by
  constructor
  · exact ((operations_ensure_session gw0 7 "sidE" "cidE" 77 chW "hi" 10
      emptyState).1 rfl).2.1
  · exact (((operations_ensure_session gw0 7 "sidE" "cidE" 42 chW "hi" 10
      st1W).2.1) s1W rfl).2.1

/-! ### Claim C3 -/

theorem sessionsConsistent_insertSession (st : ServiceState) (uid : Int)
    (s : UserSession) (h : SessionsConsistent st)
    (hs : s.assistant_id.isSome = s.thread_id.isSome) :
    SessionsConsistent (insertSession st uid s) := by
  intro p hp
  rcases mem_insertAssoc st.sessions uid s p hp with h' | h'
  · exact h p h'
  · subst h'
    exact hs

theorem sessionsConsistent_insertConversation (st : ServiceState) (cid : String)
    (c : Conversation) (h : SessionsConsistent st) :
    SessionsConsistent (insertConversation st cid c) := h

theorem sessionsConsistent_eraseConversation (st : ServiceState) (cid : String)
    (h : SessionsConsistent st) :
    SessionsConsistent (eraseConversation st cid) := h

theorem sessionsConsistent_get_or_create (now : Int) (f : String) (uid : Int)
    (st : ServiceState) (h : SessionsConsistent st) :
    (get_or_create_session now f uid st).1.assistant_id.isSome
      = (get_or_create_session now f uid st).1.thread_id.isSome ∧
    SessionsConsistent (insertSession st uid (get_or_create_session now f uid st).1) := by
  rw [get_or_create_session]
  cases hfind : find_session st uid with
  | none =>
      exact ⟨rfl, sessionsConsistent_insertSession st uid _ h rfl⟩
  | some s =>
      have hcons := h (uid, s) (findAssoc_mem st.sessions uid s hfind)
      exact ⟨hcons, sessionsConsistent_insertSession st uid _ h hcons⟩

theorem sessionsConsistent_set_character (gw : Gateway) (now : Int)
    (f₁ f₂ : String) (uid : Int) (ch : Character) (st : ServiceState)
    (h : SessionsConsistent st) :
    SessionsConsistent (set_character gw now f₁ f₂ uid ch st).2.1 := by
  obtain ⟨hx, h₁⟩ := sessionsConsistent_get_or_create now f₁ uid st h
  have hcore := reset_conversation_core_state now f₁ uid
      (insertSession st uid (get_or_create_session now f₁ uid st).1)
      ((get_or_create_session now f₁ uid st).1)
      (find_session_insertSession_self _ _ _)
  have hst₂ : SessionsConsistent (reset_conversation_core now f₁ uid
      (insertSession st uid (get_or_create_session now f₁ uid st).1)).2.1 := by
    rw [hcore]
    dsimp only
    refine sessionsConsistent_insertSession _ _ _ ?_ rfl
    split
    · exact sessionsConsistent_eraseConversation _ _
        (sessionsConsistent_insertSession _ _ _ h₁ hx)
    · exact sessionsConsistent_insertSession _ _ _ h₁ hx
  rw [set_character, get_or_create_session_eq]
  dsimp only
  split
  · exact h₁
  · split
    · exact hst₂
    · split
      · exact hst₂
      · refine sessionsConsistent_insertSession _ _ _ ?_ rfl
        exact sessionsConsistent_insertConversation _ _ _ hst₂

theorem sessionsConsistent_send_message (gw : Gateway) (now : Int) (f : String)
    (uid : Int) (text : String) (st : ServiceState) (h : SessionsConsistent st) :
    SessionsConsistent (send_message gw now f uid text st).2.1 := by
  obtain ⟨hx, h₁⟩ := sessionsConsistent_get_or_create now f uid st h
  rw [send_message, get_or_create_session_eq]
  dsimp only
  split
  · exact h₁
  · split
    · exact h₁
    · split
      · exact sessionsConsistent_insertConversation _ _ _ h₁
      · refine sessionsConsistent_insertSession _ _ _ ?_ hx
        exact sessionsConsistent_insertConversation _ _ _
          (sessionsConsistent_insertConversation _ _ _ h₁)

theorem sessionsConsistent_reset (now : Int) (f : String) (uid : Int)
    (st : ServiceState) (h : SessionsConsistent st) :
    SessionsConsistent (reset_conversation now f uid st).2.1 := by
  obtain ⟨hx, h₁⟩ := sessionsConsistent_get_or_create now f uid st h
  have hcore := reset_conversation_core_state_of_pair now f uid st
      ((get_or_create_session now f uid st).1) (get_or_create_session_eq now f uid st)
  rw [show (reset_conversation now f uid st).2.1
    = (reset_conversation_core now f uid st).2.1 from rfl, hcore]
  dsimp only
  refine sessionsConsistent_insertSession _ _ _ ?_ rfl
  split
  · exact sessionsConsistent_eraseConversation _ _ h₁
  · exact h₁

theorem sessionsConsistent_removeExpiredUser (st : ServiceState) (uid : Int)
    (h : SessionsConsistent st) :
    SessionsConsistent (removeExpiredUser st uid) := by
  rw [removeExpiredUser]
  cases hfind : find_session st uid with
  | none => exact h
  | some s =>
      intro p hp
      have hp' : p ∈ st.sessions := by
        revert hp
        dsimp only
        split
        · intro hp
          exact (eraseAssoc_sublist _ _).subset hp
        · intro hp
          exact (eraseAssoc_sublist _ _).subset hp
      exact h p hp'

theorem sessionsConsistent_cleanup (now timeout : Int) (st : ServiceState)
    (h : SessionsConsistent st) :
    SessionsConsistent (cleanup_expired_sessions now timeout st).2 := by
  have key : ∀ (us : List Int) (st : ServiceState), SessionsConsistent st →
      SessionsConsistent (us.foldl removeExpiredUser st) := by
    intro us
    induction us with
    | nil => intro st h; exact h
    | cons v rest ih =>
        intro st h
        exact ih _ (sessionsConsistent_removeExpiredUser st v h)
  exact key _ st h

theorem reachable_sessionsConsistent (st : ServiceState) (h : Reachable st) :
    SessionsConsistent st := by
  induction h with
  | init =>
      intro p hp
      simp [emptyState] at hp
  | step_set_character gw now f₁ f₂ uid ch st hst ih =>
      exact sessionsConsistent_set_character gw now f₁ f₂ uid ch st ih
  | step_send_message gw now f uid text st hst ih =>
      exact sessionsConsistent_send_message gw now f uid text st ih
  | step_reset now f uid st hst ih =>
      exact sessionsConsistent_reset now f uid st ih
  | step_cleanup now timeout st hst ih =>
      exact sessionsConsistent_cleanup now timeout st ih

/-- Claim C3: in every state reachable by any sequence of coordinator
operations, every stored session has its remote assistant id and remote
thread id either both set or both unset. -/
theorem thread_agent_both_or_neither (st : ServiceState) (h : Reachable st)
    (uid : Int) (s : UserSession) (hs : find_session st uid = some s) :
    s.assistant_id.isSome = s.thread_id.isSome :=
  reachable_sessionsConsistent st h (uid, s) (findAssoc_mem st.sessions uid s hs)

/-- Witness for C3 at the reachable state reached by one persona selection. -/
theorem thread_agent_both_or_neither_witness :
    s1W.assistant_id.isSome = s1W.thread_id.isSome :=
  thread_agent_both_or_neither st1W
    (Reachable.step_set_character gw0 0 "sid1" "cid1" 42 chW emptyState
      Reachable.init)
    42 s1W rfl

/-! ### Claim C7 -/

theorem findAssoc_none_not_mem {κ α : Type} [BEq κ] [LawfulBEq κ]
    (l : List (κ × α)) (k : κ) (h : findAssoc l k = none) :
    k ∉ l.map Prod.fst := by
  induction l with
  | nil => simp
  | cons p rest ih =>
      obtain ⟨k', v'⟩ := p
      by_cases hk : (k' == k) = true
      · simp [findAssoc, hk] at h
      · simp only [findAssoc, hk, Bool.false_eq_true, if_false] at h
        simp only [List.map_cons, List.mem_cons]
        push_neg
        constructor
        · intro hc
          exact hk (by simp [hc])
        · exact ih h

theorem find_session_removeExpiredUser (st : ServiceState) (v u : Int)
    (hnd : NodupSessionKeys st) :
    find_session (removeExpiredUser st v) u
      = if u = v then none else find_session st u := by
  rw [removeExpiredUser]
  cases hfind : find_session st v with
  | none =>
      by_cases h : u = v
      · subst h
        simp [hfind]
      · simp [h]
  | some s =>
      dsimp only
      have hsess : (if (!(pyFalsy s.conversation_id)
          && (find_conversation st (s.conversation_id.getD "")).isSome) = true then
            eraseConversation st (s.conversation_id.getD "")
          else st).sessions = st.sessions := by
        split <;> rfl
      by_cases h : u = v
      · subst h
        rw [if_pos rfl]
        show findAssoc (eraseAssoc _ u) u = none
        rw [hsess]
        exact findAssoc_eraseAssoc_self st.sessions u hnd
      · rw [if_neg h]
        show findAssoc (eraseAssoc _ v) u = _
        rw [hsess]
        exact findAssoc_eraseAssoc_ne st.sessions v u h

theorem nodupSessionKeys_removeExpiredUser (st : ServiceState) (v : Int)
    (hnd : NodupSessionKeys st) : NodupSessionKeys (removeExpiredUser st v) := by
  rw [removeExpiredUser]
  cases hfind : find_session st v with
  | none => exact hnd
  | some s =>
      dsimp only
      have hsess : (if (!(pyFalsy s.conversation_id)
          && (find_conversation st (s.conversation_id.getD "")).isSome) = true then
            eraseConversation st (s.conversation_id.getD "")
          else st).sessions = st.sessions := by
        split <;> rfl
      show ((eraseAssoc _ v).map Prod.fst).Nodup
      rw [hsess]
      exact hnd.sublist ((eraseAssoc_sublist st.sessions v).map Prod.fst)

theorem nodupConversationKeys_removeExpiredUser (st : ServiceState) (v : Int)
    (hnd : NodupConversationKeys st) :
    NodupConversationKeys (removeExpiredUser st v) := by
  rw [removeExpiredUser]
  cases hfind : find_session st v with
  | none => exact hnd
  | some s =>
      dsimp only
      show ((if (!(pyFalsy s.conversation_id)
          && (find_conversation st (s.conversation_id.getD "")).isSome) = true then
            eraseConversation st (s.conversation_id.getD "")
          else st).conversations.map Prod.fst).Nodup
      split
      · exact hnd.sublist ((eraseAssoc_sublist st.conversations _).map Prod.fst)
      · exact hnd

theorem find_session_foldRemove (us : List Int) (st : ServiceState)
    (hnd : NodupSessionKeys st) (u : Int) :
    find_session (us.foldl removeExpiredUser st) u
      = if u ∈ us then none else find_session st u := by
  induction us generalizing st with
  | nil => simp
  | cons v rest ih =>
      rw [List.foldl_cons, ih (removeExpiredUser st v)
          (nodupSessionKeys_removeExpiredUser st v hnd),
        find_session_removeExpiredUser st v u hnd]
      by_cases h₁ : u ∈ rest
      · simp [h₁]
      · by_cases h₂ : u = v
        · simp [h₁, h₂]
        · simp [h₁, h₂]

theorem find_conversation_removeExpiredUser_none (st : ServiceState) (v : Int)
    (cid : String) (h : find_conversation st cid = none) :
    find_conversation (removeExpiredUser st v) cid = none := by
  rw [removeExpiredUser]
  cases hfind : find_session st v with
  | none => exact h
  | some s =>
      dsimp only
      show findAssoc (if (!(pyFalsy s.conversation_id)
          && (find_conversation st (s.conversation_id.getD "")).isSome) = true then
            eraseConversation st (s.conversation_id.getD "")
          else st).conversations cid = none
      split
      · refine findAssoc_eq_none_of_not_mem _ _ ?_
        intro hmem
        exact findAssoc_none_not_mem st.conversations cid h
          (((eraseAssoc_sublist st.conversations _).map Prod.fst).subset hmem)
      · exact h

theorem find_conversation_removeExpiredUser_self (st : ServiceState) (v : Int)
    (s : UserSession) (cid : String) (hfind : find_session st v = some s)
    (hcid : s.conversation_id = some cid) (hne : cid.isEmpty = false)
    (hndc : NodupConversationKeys st) :
    find_conversation (removeExpiredUser st v) cid = none := by
  rw [removeExpiredUser, hfind]
  dsimp only
  rw [hcid]
  simp only [Option.getD_some, pyFalsy, hne, Bool.not_false, Bool.true_and]
  split
  · exact findAssoc_eraseAssoc_self st.conversations cid hndc
  · rename_i hmem
    exact Option.not_isSome_iff_eq_none.mp hmem

theorem find_conversation_foldRemove_mono (us : List Int) (st : ServiceState)
    (cid : String) (h : find_conversation st cid = none) :
    find_conversation (us.foldl removeExpiredUser st) cid = none := by
  induction us generalizing st with
  | nil => exact h
  | cons v rest ih =>
      rw [List.foldl_cons]
      exact ih _ (find_conversation_removeExpiredUser_none st v cid h)

theorem find_conversation_foldRemove_none (us : List Int) (hus : us.Nodup)
    (u : Int) (s : UserSession) (cid : String)
    (hcid : s.conversation_id = some cid) (hne : cid.isEmpty = false) :
    ∀ st : ServiceState, NodupSessionKeys st → NodupConversationKeys st →
      u ∈ us → find_session st u = some s →
      find_conversation (us.foldl removeExpiredUser st) cid = none := by
  induction us with
  | nil =>
      intro st _ _ hu _
      cases hu
  | cons v rest ih =>
      intro st hndS hndC hu hfind
      rw [List.foldl_cons]
      rcases List.mem_cons.mp hu with h | h
      · exact find_conversation_foldRemove_mono rest _ cid
          (find_conversation_removeExpiredUser_self st v s cid (h ▸ hfind) hcid
            hne hndC)
      · have hnv : u ≠ v := by
          intro hc
          subst hc
          exact (List.nodup_cons.mp hus).1 h
        have hfind₁ : find_session (removeExpiredUser st v) u = some s := by
          rw [find_session_removeExpiredUser st v u hndS, if_neg hnv]
          exact hfind
        exact ih (List.nodup_cons.mp hus).2 (removeExpiredUser st v)
          (nodupSessionKeys_removeExpiredUser st v hndS)
          (nodupConversationKeys_removeExpiredUser st v hndC) h hfind₁

theorem is_expired_iff (s : UserSession) (now timeout : Int) :
    s.is_expired now timeout = true
      ↔ (s.is_active = false ∨ now - s.last_activity > timeout) := by
  rw [UserSession.is_expired]
  cases h : s.is_active <;> simp [h]

theorem mem_expired_users (now timeout : Int) (st : ServiceState)
    (hnd : NodupSessionKeys st) (u : Int) (s : UserSession)
    (hs : find_session st u = some s) :
    (u ∈ (st.sessions.filter
        (fun q => q.2.is_expired now timeout)).map (fun q => q.1))
      ↔ s.is_expired now timeout = true := by
  constructor
  · intro hmem
    obtain ⟨q, hq, hq1⟩ := List.mem_map.mp hmem
    obtain ⟨hqmem, hqexp⟩ := List.mem_filter.mp hq
    obtain ⟨q1, q2⟩ := q
    dsimp only at hq1 hqexp
    subst hq1
    have hfq : findAssoc st.sessions q1 = some q2 :=
      mem_findAssoc_of_nodup st.sessions q1 q2 hnd hqmem
    have hq2 : q2 = s := by
      have := hfq.symm.trans hs
      exact Option.some.inj this
    rw [← hq2]
    exact hqexp
  · intro hexp
    exact List.mem_map.mpr ⟨(u, s),
      List.mem_filter.mpr ⟨findAssoc_mem _ _ _ hs, hexp⟩, rfl⟩

/-- Claim C7: for a positive timeout, the cleanup sweep removes a stored
session exactly when its active flag is false or `now - last_activity`
exceeds the timeout, removing its conversation along with it, and returns
the number of sessions removed; in particular a session with
`last_activity = now - timeout - 1` is removed and an active session with
`last_activity = now` is retained. -/
theorem sweep_expired_spec (now timeout : Int) (st : ServiceState)
    (hndS : NodupSessionKeys st) (hndC : NodupConversationKeys st)
    (ht : 0 < timeout) (uid : Int) (s : UserSession)
    (hs : find_session st uid = some s) :
    (find_session (cleanup_expired_sessions now timeout st).2 uid = none
      ↔ (s.is_active = false ∨ now - s.last_activity > timeout)) ∧
    (cleanup_expired_sessions now timeout st).1
      = st.sessions.countP (fun q => q.2.is_expired now timeout) ∧
    (∀ cid, s.is_expired now timeout = true → s.conversation_id = some cid →
      cid.isEmpty = false →
      find_conversation (cleanup_expired_sessions now timeout st).2 cid = none) ∧
    (s.last_activity = now - timeout - 1 →
      find_session (cleanup_expired_sessions now timeout st).2 uid = none) ∧
    (s.last_activity = now → s.is_active = true →
      find_session (cleanup_expired_sessions now timeout st).2 uid = some s) := by
  have hfold : find_session (cleanup_expired_sessions now timeout st).2 uid
      = if uid ∈ (st.sessions.filter
          (fun q => q.2.is_expired now timeout)).map (fun q => q.1)
        then none else find_session st uid :=
    find_session_foldRemove _ st hndS uid
  have hmemiff := mem_expired_users now timeout st hndS uid s hs
  have hndus : ((st.sessions.filter
      (fun q => q.2.is_expired now timeout)).map (fun q => q.1)).Nodup :=
    hndS.sublist ((st.sessions.filter_sublist).map _)
  have hiff : find_session (cleanup_expired_sessions now timeout st).2 uid = none
      ↔ s.is_expired now timeout = true := by
    rw [hfold]
    by_cases hmem : uid ∈ (st.sessions.filter
        (fun q => q.2.is_expired now timeout)).map (fun q => q.1)
    · rw [if_pos hmem]
      simp [hmemiff.mp hmem]
    · rw [if_neg hmem, hs]
      constructor
      · intro hcontra
        exact absurd hcontra (by simp)
      · intro hexp
        exact absurd (hmemiff.mpr hexp) hmem
  refine ⟨hiff.trans (is_expired_iff s now timeout), ?_, ?_, ?_, ?_⟩
  · show ((st.sessions.filter
        (fun q => q.2.is_expired now timeout)).map (fun q => q.1)).length = _
    rw [List.length_map]
    exact (List.countP_eq_length_filter _ _).symm
  · intro cid hexp hcid hne
    exact find_conversation_foldRemove_none _ hndus uid s cid hcid hne st hndS
      hndC (hmemiff.mpr hexp) hs
  · intro hla
    refine hiff.mpr ((is_expired_iff s now timeout).mpr (Or.inr ?_))
    rw [hla]
    omega
  · intro hla hact
    have hnotexp : ¬ s.is_expired now timeout = true := by
      rw [is_expired_iff]
      push_neg
      refine ⟨by simp [hact], ?_⟩
      rw [hla]
      omega
    rw [hfold, if_neg (fun hmem => hnotexp (hmemiff.mp hmem))]
    exact hs

/-- Witness for C7 at time 6 with timeout 5: session 1 (last activity 0,
equal to `now - timeout - 1`) is removed together with its conversation
`ce`, session 2 (last activity 6 = now) is retained, and the count is the
number of expired sessions. -/
theorem sweep_expired_spec_witness :
    ((find_session (cleanup_expired_sessions 6 5 stC7).2 1 = none
      ↔ (sExpW.is_active = false ∨ 6 - sExpW.last_activity > 5)) ∧
    (cleanup_expired_sessions 6 5 stC7).1
      = stC7.sessions.countP (fun q => q.2.is_expired 6 5) ∧
    (∀ cid, sExpW.is_expired 6 5 = true → sExpW.conversation_id = some cid →
      cid.isEmpty = false →
      find_conversation (cleanup_expired_sessions 6 5 stC7).2 cid = none) ∧
    (sExpW.last_activity = 6 - 5 - 1 →
      find_session (cleanup_expired_sessions 6 5 stC7).2 1 = none) ∧
    (sExpW.last_activity = 6 → sExpW.is_active = true →
      find_session (cleanup_expired_sessions 6 5 stC7).2 1 = some sExpW)) ∧
    (sLiveW.last_activity = 6 → sLiveW.is_active = true →
      find_session (cleanup_expired_sessions 6 5 stC7).2 2 = some sLiveW) := by
  constructor
  · exact sweep_expired_spec 6 5 stC7 (by unfold NodupSessionKeys; decide)
      (by unfold NodupConversationKeys; decide) (by omega) 1 sExpW rfl
  · exact (sweep_expired_spec 6 5 stC7 (by unfold NodupSessionKeys; decide)
      (by unfold NodupConversationKeys; decide) (by omega) 2 sLiveW
      rfl).2.2.2.2
